import Mathlib

/-!
GPIO utilities: blink loop and debounced switch reader.

A shallow embedding of `blink_led.c` and `gpio_extra.c`.

The C programs act on the outside world only through stdio calls.  The
embedding makes the outcome of each such call an explicit argument and makes
what the program does observable as a list of events:

* every call of `write_to_file(file, value)` is recorded as `Event.write file value`,
  whatever its outcome;
* every `fopen(GPIO17_VALUE_FILE, "r")` of the sampling loop is recorded as
  `Event.sample file`;
* `printf`, `perror` and `usleep` calls are recorded with their argument.

Both `main` functions loop forever; their embeddings run one loop iteration
for each element of a list of per-iteration outcomes and so compute the
finite beginning of the infinite run that those outcomes determine.
-/

/-- What a program does to the outside world, one constructor per kind of call. -/
inductive Event where
  | write (file value : String)
  | sample (file : String)
  | printf (text : String)
  | perror (text : String)
  | usleep (usec : Nat)
  deriving DecidableEq, Repr

/-- Outcome of the three stdio calls made by one `write_to_file`:
`fopen` gives a stream or NULL, `fprintf` and `fclose` give an `int`. -/
structure WriteOutcome where
  fopen_ok : Bool
  fprintf : Int
  fclose : Int
  deriving DecidableEq, Repr

/-- Return value of a C function together with the events it produced. -/
structure Ret where
  rc : Int
  events : List Event
  deriving DecidableEq, Repr

/-- The texts printed on standard output, in order. -/
def notices : List Event → List String
  | [] => []
  | Event.printf t :: es => t :: notices es
  | _ :: es => notices es

/-- The `(file, value)` pairs of the `write_to_file` calls, in order. -/
def writes : List Event → List (String × String)
  | [] => []
  | Event.write f v :: es => (f, v) :: writes es
  | _ :: es => writes es

/-- The files opened for sampling, in order. -/
def samples : List Event → List String
  | [] => []
  | Event.sample f :: es => f :: samples es
  | _ :: es => samples es

namespace blink_led

def ENABLE_GPIO_FILE : String := "/sys/class/gpio/export"
def SET_DIRECTION_FILE : String := "/sys/class/gpio/gpio4/direction"
def SET_VALUE_FILE : String := "/sys/class/gpio/gpio4/value"

/-- Embedding of `write_to_file` (blink_led.c, lines 59-82). -/
def write_to_file (file value : String) (o : WriteOutcome) : Ret :=
  if !o.fopen_ok then
    ⟨1, [Event.write file value, Event.perror "file open failed"]⟩
  else if o.fprintf = 0 then
    ⟨1, [Event.write file value, Event.perror "error writing to file"]⟩
  else if o.fclose ≠ 0 then
    ⟨1, [Event.write file value, Event.perror "close error"]⟩
  else
    ⟨0, [Event.write file value]⟩

/-- The `while(1)` loop of `main` (blink_led.c, lines 39-45), one iteration
for each pair of outcomes of its two writes. -/
def blink_forever : List (WriteOutcome × WriteOutcome) → List Event
  | [] => []
  | (o0, o1) :: rest =>
    (write_to_file SET_VALUE_FILE "0" o0).events ++ [Event.usleep 500000] ++
    (write_to_file SET_VALUE_FILE "1" o1).events ++ [Event.usleep 500000] ++
    blink_forever rest

/-- Embedding of `main` (blink_led.c, lines 23-49).  The exit status is
`some 1` when initialisation fails and `none` while the loop is running. -/
def main (o_enable o_direction : WriteOutcome)
    (iterations : List (WriteOutcome × WriteOutcome)) : Option Int × List Event :=
  let r1 := write_to_file ENABLE_GPIO_FILE "4" o_enable
  if r1.rc ≠ 0 then
    (some 1, r1.events ++ [Event.perror "could not enable gpio4"])
  else
    let r2 := write_to_file SET_DIRECTION_FILE "out" o_direction
    if r2.rc ≠ 0 then
      (some 1, r1.events ++ r2.events ++ [Event.perror "could not make gpio4 an output"])
    else
      (none, r1.events ++ r2.events ++ blink_forever iterations)

end blink_led

namespace gpio_extra

def ENABLE_GPIO_FILE : String := "/sys/class/gpio/export"
def SET_DIRECTION_FILE : String := "/sys/class/gpio/gpio17/direction"
def GPIO17_VALUE_FILE : String := "/sys/class/gpio/gpio17/value"
def ENABLE_GPIO4_FILE : String := "/sys/class/gpio/export"
def SET_DIRECTION4_FILE : String := "/sys/class/gpio/gpio4/direction"
def GPIO4_VALUE_FILE : String := "/sys/class/gpio/gpio4/value"

/-- Conversion of an `int` to `char`.  Whether plain `char` is signed is left
to the platform by C, so it is a parameter: unsigned `char` keeps the value
modulo 256 in `0..255` (the ARM target named in the file header), signed
`char` keeps it modulo 256 in `-128..127` (the wrap-around that gcc defines
for an out-of-range conversion). -/
def to_char (char_signed : Bool) (x : Int) : Int :=
  if char_signed then (x + 128) % 256 - 128 else x % 256

/-- The structure `SWITCH_T` (gpio_extra.c, lines 23-27): `char values[10]`
and the two `int` counts.  The counts never leave `0..10`, so `int` overflow
plays no part. -/
structure SWITCH_T where
  values : Fin 10 → Int
  high_status : Int
  low_status : Int

/-- Outcome of the stdio calls of one iteration of the sampling loop:
`fopen` gives a stream or NULL, `fread` of one byte gives that byte or
transfers nothing (`none`), `fclose` gives an `int`. -/
structure SampleOutcome where
  fopen_ok : Bool
  fread : Option (Fin 256)
  fclose : Int
  deriving DecidableEq, Repr

/-- Embedding of `init_switch` (lines 67-75).  `malloc` is taken to succeed;
it does not initialise `values`, whose content is the argument `garbage`. -/
def init_switch (garbage : Fin 10 → Int) : SWITCH_T :=
  { values := garbage, high_status := 0, low_status := 0 }

/-- Embedding of `write_to_file` (gpio_extra.c, lines 117-140). -/
def write_to_file (file value : String) (o : WriteOutcome) : Ret :=
  if !o.fopen_ok then
    ⟨1, [Event.write file value, Event.perror "file open failed"]⟩
  else if o.fprintf = 0 then
    ⟨1, [Event.write file value, Event.perror "error writing to file"]⟩
  else if o.fclose ≠ 0 then
    ⟨1, [Event.write file value, Event.perror "close error"]⟩
  else
    ⟨0, [Event.write file value]⟩

/-- Embedding of `init_gpio` (lines 82-107); one outcome for each of the four
writes, used only if that write is reached. -/
def init_gpio (o1 o2 o3 o4 : WriteOutcome) : Ret :=
  let r1 := write_to_file ENABLE_GPIO_FILE "17" o1
  if r1.rc ≠ 0 then
    ⟨1, r1.events ++ [Event.perror "error enabling gpio17"]⟩
  else
    let r2 := write_to_file SET_DIRECTION_FILE "in" o2
    if r2.rc ≠ 0 then
      ⟨1, r1.events ++ r2.events ++ [Event.perror "error setting gpio17 as input"]⟩
    else
      let r3 := write_to_file ENABLE_GPIO4_FILE "4" o3
      if r3.rc ≠ 0 then
        ⟨1, r1.events ++ r2.events ++ r3.events ++ [Event.perror "could not enable gpio4"]⟩
      else
        let r4 := write_to_file SET_DIRECTION4_FILE "out" o4
        if r4.rc ≠ 0 then
          ⟨1, r1.events ++ r2.events ++ r3.events ++ r4.events ++
                [Event.perror "could not make gpio4 an output"]⟩
        else
          ⟨0, r1.events ++ r2.events ++ r3.events ++ r4.events⟩

/-- Loop index of a `for` loop over `0..9` when `k + 1` iterations are left,
the current one included: `10 - (k + 1)`. -/
def pos_of (k : Nat) : Fin 10 := ⟨10 - (k + 1), by omega⟩

/-- State of a call that works on the switch structure: the value returned
so far (`none` while no `return` was executed), the structure, the events. -/
structure Run where
  ret : Option Int
  S : SWITCH_T
  events : List Event

/-- The sampling loop `for(i = 0; i < 10; i++)` of `get_debounce_vals`
(lines 155-178) with `k` iterations left, so that `i = 10 - k`. -/
def sample_loop (char_signed : Bool) (io : Fin 10 → SampleOutcome) : Nat → SWITCH_T → Run
  | 0, S => ⟨none, S, []⟩
  | k + 1, S =>
    let i : Fin 10 := pos_of k
    if !(io i).fopen_ok then
      ⟨some 1, S, [Event.sample GPIO17_VALUE_FILE, Event.perror "could not open value file"]⟩
    else
      match (io i).fread with
      | none =>
        ⟨some 1, S, [Event.sample GPIO17_VALUE_FILE, Event.perror "error reading from file"]⟩
      | some c =>
        let read_buffer0 : Int := to_char char_signed c.val
        let S1 : SWITCH_T := { S with values := Function.update S.values i
                                        (to_char char_signed (read_buffer0 - 48)) }
        if (io i).fclose ≠ 0 then
          ⟨some 1, S1, [Event.sample GPIO17_VALUE_FILE, Event.perror "close error"]⟩
        else
          let r := sample_loop char_signed io k S1
          ⟨r.ret, r.S, Event.sample GPIO17_VALUE_FILE :: r.events⟩

/-- The counting loop `for (j = 0; j < 10; j++)` of `get_debounce_vals`
(lines 184-190) with `k` iterations left, so that `j = 10 - k`. -/
def count_loop : Nat → SWITCH_T → SWITCH_T
  | 0, S => S
  | k + 1, S =>
    let j : Fin 10 := pos_of k
    if S.values j = 1 then
      count_loop k { S with high_status := S.high_status + 1 }
    else
      count_loop k { S with low_status := S.low_status + 1 }

/-- Result of `get_debounce_vals`: return value, structure afterwards, events. -/
structure Sampled where
  rc : Int
  S : SWITCH_T
  events : List Event

/-- Embedding of `get_debounce_vals` (lines 149-193). -/
def get_debounce_vals (char_signed : Bool) (io : Fin 10 → SampleOutcome) (S : SWITCH_T) :
    Sampled :=
  let r := sample_loop char_signed io 10 S
  match r.ret with
  | some rc => ⟨rc, r.S, r.events⟩
  | none =>
    let S0 : SWITCH_T := { r.S with high_status := 0, low_status := 0 }
    ⟨0, count_loop 10 S0, r.events⟩

/-- Embedding of `switch_led` (lines 202-219); one outcome for each of its
two possible writes, used only if that write is made. -/
def switch_led (S : SWITCH_T) (o_high o_low : WriteOutcome) : List Event :=
  (if S.high_status = 10 then
    let w := write_to_file GPIO4_VALUE_FILE "1" o_high
    [Event.printf "Switch pressed!\n"] ++ w.events ++
      (if w.rc ≠ 0 then [Event.perror "could not write to gpio4 value file"] else [])
  else []) ++
  (if S.low_status = 10 then
    let w := write_to_file GPIO4_VALUE_FILE "0" o_low
    [Event.printf "Switch released!\n"] ++ w.events ++
      (if w.rc ≠ 0 then [Event.perror "could not write to gpio4 value file"] else [])
  else [])

/-- Outcomes of all stdio calls that one iteration of the loop of `main` can make. -/
structure Cycle where
  reads : Fin 10 → SampleOutcome
  o_high : WriteOutcome
  o_low : WriteOutcome

/-- Body of the `while(1)` loop of `main` (lines 50-57): the structure
afterwards and the events of the iteration. -/
def poll_cycle (char_signed : Bool) (S : SWITCH_T) (c : Cycle) : SWITCH_T × List Event :=
  let r := get_debounce_vals char_signed c.reads S
  (r.S, r.events ++ (if r.rc ≠ 0 then [Event.perror "could not read values"] else []) ++
        switch_led r.S c.o_high c.o_low)

/-- The `while(1)` loop of `main`, one iteration for each element of `cycles`. -/
def poll_forever (char_signed : Bool) : SWITCH_T → List Cycle → SWITCH_T × List Event
  | S, [] => (S, [])
  | S, c :: rest =>
    let r := poll_cycle char_signed S c
    let t := poll_forever char_signed r.1 rest
    (t.1, r.2 ++ t.2)

/-- Embedding of `main` (lines 39-60).  The exit status is `some 1` when
initialisation fails and `none` while the loop is running. -/
def main (char_signed : Bool) (o1 o2 o3 o4 : WriteOutcome) (garbage : Fin 10 → Int)
    (cycles : List Cycle) : Option Int × List Event :=
  let r := init_gpio o1 o2 o3 o4
  if r.rc ≠ 0 then
    (some 1, r.events ++ [Event.perror "could not initialize gpio17"])
  else
    let S := init_switch garbage
    (none, r.events ++ (poll_forever char_signed S cycles).2)

/-- The value that `get_debounce_vals` stores for a byte read from the value file. -/
def sample_value (char_signed : Bool) (c : Fin 256) : Int :=
  to_char char_signed (to_char char_signed c.val - 48)

/-- Number of positions of a window whose sample equals 1. -/
def count_high (v : Fin 10 → Int) : Nat :=
  (List.finRange 10).countP (fun i => decide (v i = 1))

/-- Number of positions of a window whose sample differs from 1. -/
def count_low (v : Fin 10 → Int) : Nat :=
  (List.finRange 10).countP (fun i => decide (v i ≠ 1))

/-- All three stdio calls of one sampling iteration succeed. -/
def sample_ok (o : SampleOutcome) : Prop :=
  o.fopen_ok = true ∧ o.fread ≠ none ∧ o.fclose = 0

instance (o : SampleOutcome) : Decidable (sample_ok o) := by
  unfold sample_ok
  infer_instance

/-- One sampling iteration succeeds and reads the byte `c`. -/
def delivers (o : SampleOutcome) (c : Fin 256) : Prop :=
  o.fopen_ok = true ∧ o.fread = some c ∧ o.fclose = 0

instance (o : SampleOutcome) (c : Fin 256) : Decidable (delivers o c) := by
  unfold delivers
  infer_instance

/-- Number of samples equal to 1 among the last `k` positions of a window. -/
def ones_from (v : Fin 10 → Int) : Nat → Nat
  | 0 => 0
  | k + 1 => (if v (pos_of k) = 1 then 1 else 0) + ones_from v k

/-- Number of samples different from 1 among the last `k` positions of a window. -/
def others_from (v : Fin 10 → Int) : Nat → Nat
  | 0 => 0
  | k + 1 => (if v (pos_of k) = 1 then 0 else 1) + others_from v k

/-- Ten successful sampling iterations that read the bytes `b 0`, ..., `b 9`. -/
def window_reads (b : Fin 10 → Fin 256) : Fin 10 → SampleOutcome :=
  fun i => ⟨true, some (b i), 0⟩

/-- A write in which all three stdio calls succeed (two bytes are transferred). -/
def write_ok : WriteOutcome := ⟨true, 2, 0⟩

/-- A write whose `fopen` fails. -/
def write_fails : WriteOutcome := ⟨false, 0, 0⟩

/-- Scenario A: all ten reads give the character 1. -/
def cycle_all_high : Cycle := ⟨window_reads (fun _ => 49), write_ok, write_ok⟩

/-- Scenario B: all ten reads give the character 0. -/
def cycle_all_low : Cycle := ⟨window_reads (fun _ => 48), write_ok, write_ok⟩

/-- Scenario C: the reads give 1,1,1,1,1,0,1,1,1,1. -/
def cycle_mixed : Cycle :=
  ⟨window_reads (fun i => if i = 5 then 48 else 49), write_ok, write_ok⟩

/-- Failure injection: the reads give the character 0 until the `fread` of
sample 5 of 10 (position 4) transfers nothing. -/
def cycle_read_fails : Cycle :=
  ⟨fun i => if i = 4 then ⟨true, none, 0⟩ else ⟨true, some 48, 0⟩, write_ok, write_ok⟩

/-- What holds of the counts throughout the polling loop. -/
def counts_inv (S : SWITCH_T) : Prop :=
  0 ≤ S.high_status ∧ 0 ≤ S.low_status ∧
  ((S.high_status = 0 ∧ S.low_status = 0) ∨ S.high_status + S.low_status = 10)

/-- The four set-up writes of `init_gpio`, in source order. -/
def setup_writes : List (String × String) :=
  [(ENABLE_GPIO_FILE, "17"), (SET_DIRECTION_FILE, "in"),
   (ENABLE_GPIO4_FILE, "4"), (SET_DIRECTION4_FILE, "out")]


end gpio_extra

/-! ## Projections of event lists -/

theorem notices_append (a b : List Event) : notices (a ++ b) = notices a ++ notices b := by
  induction a with
  | nil => rfl
  | cons e es ih => cases e <;> simp [notices, ih]

theorem writes_append (a b : List Event) : writes (a ++ b) = writes a ++ writes b := by
  induction a with
  | nil => rfl
  | cons e es ih => cases e <;> simp [writes, ih]

theorem samples_append (a b : List Event) : samples (a ++ b) = samples a ++ samples b := by
  induction a with
  | nil => rfl
  | cons e es ih => cases e <;> simp [samples, ih]

namespace gpio_extra

/-! ## The write primitive -/

theorem write_to_file_rc (file value : String) (o : WriteOutcome) :
    (write_to_file file value o).rc = 0 ∨ (write_to_file file value o).rc = 1 := by
  unfold write_to_file
  split_ifs <;> simp

theorem write_to_file_writes (file value : String) (o : WriteOutcome) :
    writes (write_to_file file value o).events = [(file, value)] := by
  unfold write_to_file
  split_ifs <;> simp [writes]

theorem write_to_file_notices (file value : String) (o : WriteOutcome) :
    notices (write_to_file file value o).events = [] := by
  unfold write_to_file
  split_ifs <;> simp [notices]

theorem write_to_file_samples (file value : String) (o : WriteOutcome) :
    samples (write_to_file file value o).events = [] := by
  unfold write_to_file
  split_ifs <;> simp [samples]

/-! ## The counting loop -/

theorem count_loop_values (k : Nat) (S : SWITCH_T) : (count_loop k S).values = S.values := by
  induction k generalizing S with
  | zero => rfl
  | succ k ih =>
    simp only [count_loop]
    split_ifs <;> rw [ih]

theorem count_loop_high (k : Nat) (S : SWITCH_T) :
    (count_loop k S).high_status = S.high_status + ones_from S.values k := by
  induction k generalizing S with
  | zero => simp [count_loop, ones_from]
  | succ k ih =>
    simp only [count_loop, ones_from]
    split_ifs with h <;> rw [ih] <;> simp only [] <;> omega

theorem count_loop_low (k : Nat) (S : SWITCH_T) :
    (count_loop k S).low_status = S.low_status + others_from S.values k := by
  induction k generalizing S with
  | zero => simp [count_loop, others_from]
  | succ k ih =>
    simp only [count_loop, others_from]
    split_ifs with h <;> rw [ih] <;> simp only [] <;> omega

theorem ones_add_others (v : Fin 10 → Int) (k : Nat) : ones_from v k + others_from v k = k := by
  induction k with
  | zero => rfl
  | succ k ih =>
    simp only [ones_from, others_from]
    split_ifs <;> omega

theorem finRange_ten : List.finRange 10 = [0, 1, 2, 3, 4, 5, 6, 7, 8, 9] := by
  decide

theorem ones_from_ten (v : Fin 10 → Int) : ones_from v 10 = count_high v := by
  simp only [ones_from, count_high, finRange_ten, List.countP_cons, List.countP_nil,
    decide_eq_true_eq, pos_of, Nat.reduceAdd, Nat.reduceSub, Fin.reduceFinMk]
  ring

theorem others_from_ten (v : Fin 10 → Int) : others_from v 10 = count_low v := by
  simp only [others_from, count_low, finRange_ten, List.countP_cons, List.countP_nil,
    decide_eq_true_eq, ne_eq, ite_not, decide_not, Bool.not_eq_true', decide_eq_false_iff_not,
    pos_of, Nat.reduceAdd, Nat.reduceSub, Fin.reduceFinMk]
  ring

/-! ## The sampling loop -/

theorem sample_loop_open_fail (cs : Bool) (io : Fin 10 → SampleOutcome) (k : Nat) (S : SWITCH_T)
    (h : (io (pos_of k)).fopen_ok = false) :
    sample_loop cs io (k + 1) S =
      ⟨some 1, S, [Event.sample GPIO17_VALUE_FILE, Event.perror "could not open value file"]⟩ := by
  simp [sample_loop, h]

theorem sample_loop_read_fail (cs : Bool) (io : Fin 10 → SampleOutcome) (k : Nat) (S : SWITCH_T)
    (h : (io (pos_of k)).fopen_ok = true) (hr : (io (pos_of k)).fread = none) :
    sample_loop cs io (k + 1) S =
      ⟨some 1, S, [Event.sample GPIO17_VALUE_FILE, Event.perror "error reading from file"]⟩ := by
  simp [sample_loop, h, hr]

theorem sample_loop_close_fail (cs : Bool) (io : Fin 10 → SampleOutcome) (k : Nat) (S : SWITCH_T)
    (c : Fin 256) (h : (io (pos_of k)).fopen_ok = true) (hr : (io (pos_of k)).fread = some c)
    (hc : (io (pos_of k)).fclose ≠ 0) :
    sample_loop cs io (k + 1) S =
      ⟨some 1, { S with values := Function.update S.values (pos_of k) (sample_value cs c) },
        [Event.sample GPIO17_VALUE_FILE, Event.perror "close error"]⟩ := by
  simp [sample_loop, h, hr, hc, sample_value]

theorem sample_loop_next (cs : Bool) (io : Fin 10 → SampleOutcome) (k : Nat) (S : SWITCH_T)
    (c : Fin 256) (h : (io (pos_of k)).fopen_ok = true) (hr : (io (pos_of k)).fread = some c)
    (hc : (io (pos_of k)).fclose = 0) :
    sample_loop cs io (k + 1) S =
      (let r := sample_loop cs io k
          { S with values := Function.update S.values (pos_of k) (sample_value cs c) }
       ⟨r.ret, r.S, Event.sample GPIO17_VALUE_FILE :: r.events⟩) := by
  simp [sample_loop, h, hr, hc, sample_value]

/-- The four ways one iteration of the sampling loop can go. -/
theorem sample_loop_cases (cs : Bool) (io : Fin 10 → SampleOutcome) (k : Nat) (S : SWITCH_T) :
    (sample_loop cs io (k + 1) S =
        ⟨some 1, S, [Event.sample GPIO17_VALUE_FILE, Event.perror "could not open value file"]⟩ ∧
      (io (pos_of k)).fopen_ok = false) ∨
    (sample_loop cs io (k + 1) S =
        ⟨some 1, S, [Event.sample GPIO17_VALUE_FILE, Event.perror "error reading from file"]⟩ ∧
      (io (pos_of k)).fread = none) ∨
    (∃ c, sample_loop cs io (k + 1) S =
        ⟨some 1, { S with values := Function.update S.values (pos_of k) (sample_value cs c) },
          [Event.sample GPIO17_VALUE_FILE, Event.perror "close error"]⟩ ∧
      (io (pos_of k)).fclose ≠ 0) ∨
    (∃ c, sample_loop cs io (k + 1) S =
        ⟨(sample_loop cs io k
            { S with values := Function.update S.values (pos_of k) (sample_value cs c) }).ret,
         (sample_loop cs io k
            { S with values := Function.update S.values (pos_of k) (sample_value cs c) }).S,
         Event.sample GPIO17_VALUE_FILE :: (sample_loop cs io k
            { S with values := Function.update S.values (pos_of k) (sample_value cs c) }).events⟩ ∧
      (io (pos_of k)).fopen_ok = true ∧ (io (pos_of k)).fread = some c ∧
      (io (pos_of k)).fclose = 0) := by
  cases hopen : (io (pos_of k)).fopen_ok with
  | false => exact Or.inl ⟨sample_loop_open_fail cs io k S hopen, rfl⟩
  | true =>
    cases hread : (io (pos_of k)).fread with
    | none => exact Or.inr (Or.inl ⟨sample_loop_read_fail cs io k S hopen hread, rfl⟩)
    | some c =>
      by_cases hclose : (io (pos_of k)).fclose = 0
      · exact Or.inr (Or.inr (Or.inr
          ⟨c, sample_loop_next cs io k S c hopen hread hclose, rfl, rfl, hclose⟩))
      · exact Or.inr (Or.inr (Or.inl
          ⟨c, sample_loop_close_fail cs io k S c hopen hread hclose, hclose⟩))

theorem sample_loop_counts (cs : Bool) (io : Fin 10 → SampleOutcome) (k : Nat) (S : SWITCH_T) :
    (sample_loop cs io k S).S.high_status = S.high_status ∧
    (sample_loop cs io k S).S.low_status = S.low_status := by
  induction k generalizing S with
  | zero => simp [sample_loop]
  | succ k ih =>
    rcases sample_loop_cases cs io k S with ⟨h, _⟩ | ⟨h, _⟩ | ⟨c, h, _⟩ | ⟨c, h, _⟩ <;> rw [h]
    · simp
    · simp
    · simp
    · simp only []
      rw [(ih _).1, (ih _).2]
      simp

theorem sample_loop_quiet (cs : Bool) (io : Fin 10 → SampleOutcome) (k : Nat) (S : SWITCH_T) :
    notices (sample_loop cs io k S).events = [] ∧ writes (sample_loop cs io k S).events = [] := by
  induction k generalizing S with
  | zero => simp [sample_loop, notices, writes]
  | succ k ih =>
    rcases sample_loop_cases cs io k S with ⟨h, _⟩ | ⟨h, _⟩ | ⟨c, h, _⟩ | ⟨c, h, _⟩ <;> rw [h]
    · simp [notices, writes]
    · simp [notices, writes]
    · simp [notices, writes]
    · simp only [notices, writes]
      exact ih _

theorem sample_loop_ret (cs : Bool) (io : Fin 10 → SampleOutcome) (k : Nat) (S : SWITCH_T) :
    (sample_loop cs io k S).ret = none ∨ (sample_loop cs io k S).ret = some 1 := by
  induction k generalizing S with
  | zero => simp [sample_loop]
  | succ k ih =>
    rcases sample_loop_cases cs io k S with ⟨h, _⟩ | ⟨h, _⟩ | ⟨c, h, _⟩ | ⟨c, h, _⟩ <;> rw [h]
    · simp
    · simp
    · simp
    · exact ih _

/-- The loop leaves alone the positions before the one it starts at. -/
theorem sample_loop_before (cs : Bool) (io : Fin 10 → SampleOutcome) (k : Nat) (S : SWITCH_T)
    (j : Fin 10) (hj : j.val < 10 - k) : (sample_loop cs io k S).S.values j = S.values j := by
  induction k generalizing S with
  | zero => simp [sample_loop]
  | succ k ih =>
    have hne : j ≠ pos_of k := by
      intro h
      rw [h] at hj
      simp [pos_of] at hj
    rcases sample_loop_cases cs io k S with ⟨h, _⟩ | ⟨h, _⟩ | ⟨c, h, _⟩ | ⟨c, h, _⟩ <;> rw [h]
    · simp [Function.update_noteq hne]
    · simp only []
      rw [ih _ (by omega)]
      simp [Function.update_noteq hne]

/-- Once iteration `i` is reached and its open and read succeed, position `i`
holds the converted byte when the loop ends, however it ends. -/
theorem sample_loop_stored (cs : Bool) (io : Fin 10 → SampleOutcome) (k : Nat) (hk : k ≤ 10)
    (S : SWITCH_T) (i : Fin 10) (c : Fin 256) (hi : 10 - k ≤ i.val)
    (hbefore : ∀ j : Fin 10, 10 - k ≤ j.val → j.val < i.val → sample_ok (io j))
    (hopen : (io i).fopen_ok = true) (hread : (io i).fread = some c) :
    (sample_loop cs io k S).S.values i = sample_value cs c := by
  induction k generalizing S with
  | zero => omega
  | succ k ih =>
    by_cases hcur : i.val = 10 - (k + 1)
    · have hidx : pos_of k = i := Fin.ext hcur.symm
      subst hidx
      by_cases hclose : (io (pos_of k)).fclose = 0
      · rw [sample_loop_next cs io k S c hopen hread hclose]
        simp only []
        rw [sample_loop_before cs io k _ (pos_of k) (by simp [pos_of]; omega)]
        simp
      · rw [sample_loop_close_fail cs io k S c hopen hread hclose]
        simp
    · have hok := hbefore (pos_of k) (le_refl _) (by simp [pos_of]; omega)
      obtain ⟨h1, h2, h3⟩ := hok
      obtain ⟨b, hb⟩ := Option.ne_none_iff_exists'.mp h2
      rw [sample_loop_next cs io k S b h1 hb h3]
      exact ih (by omega) _ (by omega) (fun j hj1 hj2 => hbefore j (by omega) hj2)

/-- The loop runs to its end exactly when every remaining iteration succeeds. -/
theorem sample_loop_completes (cs : Bool) (io : Fin 10 → SampleOutcome) (k : Nat) (hk : k ≤ 10)
    (S : SWITCH_T) :
    (sample_loop cs io k S).ret = none ↔ ∀ j : Fin 10, 10 - k ≤ j.val → sample_ok (io j) := by
  induction k generalizing S with
  | zero =>
    simp only [sample_loop, true_iff]
    intro j hj
    omega
  | succ k ih =>
    have hpos : (pos_of k).val = 10 - (k + 1) := rfl
    have split_range : ∀ j : Fin 10, 10 - (k + 1) ≤ j.val → j = pos_of k ∨ 10 - k ≤ j.val := by
      intro j hj
      by_cases h : j.val = 10 - (k + 1)
      · exact Or.inl (Fin.ext h)
      · exact Or.inr (by omega)
    rcases sample_loop_cases cs io k S with ⟨h, h1⟩ | ⟨h, h1⟩ | ⟨c, h, h1⟩ | ⟨c, h, h1, h2, h3⟩
      <;> rw [h]
    · simp only [reduceCtorEq, false_iff]
      intro hall
      have := (hall (pos_of k) (by omega)).1
      rw [h1] at this
      cases this
    · simp only [reduceCtorEq, false_iff]
      intro hall
      exact (hall (pos_of k) (by omega)).2.1 h1
    · simp only [reduceCtorEq, false_iff]
      intro hall
      exact h1 (hall (pos_of k) (by omega)).2.2
    · simp only []
      rw [ih (by omega)]
      constructor
      · intro hall j hj
        rcases split_range j hj with e | e
        · subst e
          refine ⟨h1, ?_, h3⟩
          rw [h2]
          simp
        · exact hall j e
      · intro hall j hj
        exact hall j (by omega)

/-! ## `get_debounce_vals` -/

theorem delivers_ok {o : SampleOutcome} {c : Fin 256} (h : delivers o c) : sample_ok o := by
  refine ⟨h.1, ?_, h.2.2⟩
  rw [h.2.1]
  simp

/-- When all ten iterations succeed the call returns 0, the window holds the
converted bytes and the counts are those of the window. -/
theorem get_debounce_vals_success (cs : Bool) (io : Fin 10 → SampleOutcome) (S : SWITCH_T)
    (b : Fin 10 → Fin 256) (hio : ∀ i, delivers (io i) (b i)) :
    (get_debounce_vals cs io S).rc = 0 ∧
    (∀ i, (get_debounce_vals cs io S).S.values i = sample_value cs (b i)) ∧
    (get_debounce_vals cs io S).S.high_status = count_high (get_debounce_vals cs io S).S.values ∧
    (get_debounce_vals cs io S).S.low_status = count_low (get_debounce_vals cs io S).S.values ∧
    (get_debounce_vals cs io S).S.high_status + (get_debounce_vals cs io S).S.low_status = 10 := by
  have hnone : (sample_loop cs io 10 S).ret = none :=
    (sample_loop_completes cs io 10 (le_refl _) S).mpr (fun j _ => delivers_ok (hio j))
  have hvals : ∀ i, (sample_loop cs io 10 S).S.values i = sample_value cs (b i) := fun i =>
    sample_loop_stored cs io 10 (le_refl _) S i (b i) (by omega)
      (fun j _ _ => delivers_ok (hio j)) (hio i).1 (hio i).2.1
  unfold get_debounce_vals
  simp only [hnone]
  refine ⟨trivial, ?_, ?_, ?_, ?_⟩
  · intro i
    rw [count_loop_values]
    exact hvals i
  · rw [count_loop_high, count_loop_values, ones_from_ten]
    simp
  · rw [count_loop_low, count_loop_values, others_from_ten]
    simp
  · rw [count_loop_high, count_loop_low]
    have := ones_add_others (sample_loop cs io 10 S).S.values 10
    simp only [zero_add]
    omega

/-- When some iteration fails the call returns 1 and leaves both counts as they were. -/
theorem get_debounce_vals_failure (cs : Bool) (io : Fin 10 → SampleOutcome) (S : SWITCH_T)
    (hfail : ¬ ∀ i, sample_ok (io i)) :
    (get_debounce_vals cs io S).rc = 1 ∧
    (get_debounce_vals cs io S).S.high_status = S.high_status ∧
    (get_debounce_vals cs io S).S.low_status = S.low_status := by
  have hret : (sample_loop cs io 10 S).ret = some 1 := by
    rcases sample_loop_ret cs io 10 S with h | h
    · exact absurd (fun i => (sample_loop_completes cs io 10 (le_refl _) S).mp h i (by omega)) hfail
    · exact h
  unfold get_debounce_vals
  simp only [hret]
  exact ⟨trivial, (sample_loop_counts cs io 10 S).1, (sample_loop_counts cs io 10 S).2⟩

theorem get_debounce_vals_quiet (cs : Bool) (io : Fin 10 → SampleOutcome) (S : SWITCH_T) :
    notices (get_debounce_vals cs io S).events = [] ∧
    writes (get_debounce_vals cs io S).events = [] := by
  have hq := sample_loop_quiet cs io 10 S
  unfold get_debounce_vals
  rcases sample_loop_ret cs io 10 S with h | h <;> simp only [h] <;> exact hq

/-! ## Counting a window -/

theorem countP_finRange_le (p : Fin 10 → Bool) : (List.finRange 10).countP p ≤ 10 := by
  have := List.countP_le_length p (l := List.finRange 10)
  simpa using this

theorem count_high_pos (v : Fin 10 → Int) (h : ∃ i, v i = 1) : 0 < count_high v := by
  obtain ⟨i, hi⟩ := h
  unfold count_high
  rw [List.countP_pos_iff]
  exact ⟨i, List.mem_finRange i, by simpa using hi⟩

theorem count_low_pos (v : Fin 10 → Int) (h : ∃ i, v i ≠ 1) : 0 < count_low v := by
  obtain ⟨i, hi⟩ := h
  unfold count_low
  rw [List.countP_pos_iff]
  exact ⟨i, List.mem_finRange i, by simpa using hi⟩

theorem count_high_all (v : Fin 10 → Int) (h : ∀ i, v i = 1) : count_high v = 10 := by
  unfold count_high
  rw [List.countP_eq_length.mpr]
  · simp
  · intro i _
    simpa using h i

theorem count_low_all (v : Fin 10 → Int) (h : ∀ i, v i ≠ 1) : count_low v = 10 := by
  unfold count_low
  rw [List.countP_eq_length.mpr]
  · simp
  · intro i _
    simpa using h i

/-! ## `switch_led` -/

theorem switch_led_neither (S : SWITCH_T) (o_high o_low : WriteOutcome)
    (hh : S.high_status ≠ 10) (hl : S.low_status ≠ 10) : switch_led S o_high o_low = [] := by
  simp [switch_led, hh, hl]

theorem switch_led_high (S : SWITCH_T) (o_high o_low : WriteOutcome)
    (hh : S.high_status = 10) (hl : S.low_status ≠ 10) :
    notices (switch_led S o_high o_low) = ["Switch pressed!\n"] ∧
    writes (switch_led S o_high o_low) = [(GPIO4_VALUE_FILE, "1")] := by
  simp only [switch_led, hh, hl, if_true, if_false, List.append_nil, notices_append,
    writes_append, write_to_file_notices, write_to_file_writes]
  constructor <;> split_ifs <;> simp [notices, writes]

theorem switch_led_low (S : SWITCH_T) (o_high o_low : WriteOutcome)
    (hh : S.high_status ≠ 10) (hl : S.low_status = 10) :
    notices (switch_led S o_high o_low) = ["Switch released!\n"] ∧
    writes (switch_led S o_high o_low) = [(GPIO4_VALUE_FILE, "0")] := by
  simp only [switch_led, hh, hl, if_true, if_false, List.nil_append, notices_append,
    writes_append, write_to_file_notices, write_to_file_writes]
  constructor <;> split_ifs <;> simp [notices, writes]

/-! ## One polling cycle -/

theorem poll_cycle_notices (cs : Bool) (S : SWITCH_T) (c : Cycle) :
    notices (poll_cycle cs S c).2 =
      notices (switch_led (get_debounce_vals cs c.reads S).S c.o_high c.o_low) := by
  simp only [poll_cycle, notices_append, (get_debounce_vals_quiet cs c.reads S).1]
  split_ifs <;> simp [notices]

theorem poll_cycle_writes (cs : Bool) (S : SWITCH_T) (c : Cycle) :
    writes (poll_cycle cs S c).2 =
      writes (switch_led (get_debounce_vals cs c.reads S).S c.o_high c.o_low) := by
  simp only [poll_cycle, writes_append, (get_debounce_vals_quiet cs c.reads S).2]
  split_ifs <;> simp [writes]

/-! ## Classification of a completed window -/

/-- C1: when all ten samples are read, at least one stored sample equals 1 and
at least one differs from 1, then for any prior structure `get_debounce_vals`
returns 0 and the polling cycle classifies nothing: `switch_led` does nothing,
the cycle prints no notice and makes no call of `write_to_file`, so nothing is
written to the gpio4 value file. -/
theorem mixed_window_no_classification (cs : Bool) (S : SWITCH_T) (c : Cycle)
    (b : Fin 10 → Fin 256) (hreads : ∀ i, delivers (c.reads i) (b i))
    (hone : ∃ i, sample_value cs (b i) = 1) (hother : ∃ j, sample_value cs (b j) ≠ 1) :
    (get_debounce_vals cs c.reads S).rc = 0 ∧
    (∀ i, (get_debounce_vals cs c.reads S).S.values i = sample_value cs (b i)) ∧
    switch_led (get_debounce_vals cs c.reads S).S c.o_high c.o_low = [] ∧
    notices (poll_cycle cs S c).2 = [] ∧
    writes (poll_cycle cs S c).2 = [] := by
  obtain ⟨hrc, hv, hh, hl, hsum⟩ := get_debounce_vals_success cs c.reads S b hreads
  have h1 : 0 < count_high (get_debounce_vals cs c.reads S).S.values := by
    apply count_high_pos
    obtain ⟨i, hi⟩ := hone
    exact ⟨i, by rw [hv i]; exact hi⟩
  have h0 : 0 < count_low (get_debounce_vals cs c.reads S).S.values := by
    apply count_low_pos
    obtain ⟨j, hj⟩ := hother
    exact ⟨j, by rw [hv j]; exact hj⟩
  have hled : switch_led (get_debounce_vals cs c.reads S).S c.o_high c.o_low = [] :=
    switch_led_neither _ _ _ (by omega) (by omega)
  refine ⟨hrc, hv, hled, ?_, ?_⟩
  · rw [poll_cycle_notices, hled]
    rfl
  · rw [poll_cycle_writes, hled]
    rfl

/-- Scenario C: the window 1,1,1,1,1,0,1,1,1,1 gives no notice and no write. -/
theorem mixed_window_no_classification_witness :
    (get_debounce_vals false cycle_mixed.reads (init_switch fun _ => 0)).rc = 0 ∧
    (∀ i, (get_debounce_vals false cycle_mixed.reads (init_switch fun _ => 0)).S.values i =
      sample_value false (if i = 5 then 48 else 49)) ∧
    switch_led (get_debounce_vals false cycle_mixed.reads (init_switch fun _ => 0)).S
      cycle_mixed.o_high cycle_mixed.o_low = [] ∧
    notices (poll_cycle false (init_switch fun _ => 0) cycle_mixed).2 = [] ∧
    writes (poll_cycle false (init_switch fun _ => 0) cycle_mixed).2 = [] :=
  mixed_window_no_classification false (init_switch fun _ => 0) cycle_mixed
    (fun i => if i = 5 then 48 else 49) (by decide) ⟨0, by decide⟩ ⟨5, by decide⟩

/-- C2: when all ten samples are read and every stored sample equals 1, then
for any prior structure (one left by an all-1 cycle included)
`get_debounce_vals` returns 0 and the polling cycle prints the notice
"Switch pressed!" once and nothing else, and calls `write_to_file` once, for
the gpio4 value file with the value "1"; there is no write of "0". -/
theorem all_high_window_pressed (cs : Bool) (S : SWITCH_T) (c : Cycle)
    (b : Fin 10 → Fin 256) (hreads : ∀ i, delivers (c.reads i) (b i))
    (hall : ∀ i, sample_value cs (b i) = 1) :
    (get_debounce_vals cs c.reads S).rc = 0 ∧
    (∀ i, (get_debounce_vals cs c.reads S).S.values i = 1) ∧
    notices (poll_cycle cs S c).2 = ["Switch pressed!\n"] ∧
    writes (poll_cycle cs S c).2 = [(GPIO4_VALUE_FILE, "1")] := by
  obtain ⟨hrc, hv, hh, hl, hsum⟩ := get_debounce_vals_success cs c.reads S b hreads
  have hone : ∀ i, (get_debounce_vals cs c.reads S).S.values i = 1 := fun i => by
    rw [hv i]
    exact hall i
  have h10 := count_high_all _ hone
  have hled := switch_led_high (get_debounce_vals cs c.reads S).S c.o_high c.o_low
    (by omega) (by omega)
  exact ⟨hrc, hone, by rw [poll_cycle_notices]; exact hled.1,
    by rw [poll_cycle_writes]; exact hled.2⟩

/-- Scenario A twice over: an all-1 window arriving on the structure left by
an all-1 cycle is classified as pressed again. -/
theorem all_high_window_pressed_witness :
    (get_debounce_vals false cycle_all_high.reads
      (poll_cycle false (init_switch fun _ => 0) cycle_all_high).1).rc = 0 ∧
    (∀ i, (get_debounce_vals false cycle_all_high.reads
      (poll_cycle false (init_switch fun _ => 0) cycle_all_high).1).S.values i = 1) ∧
    notices (poll_cycle false (poll_cycle false (init_switch fun _ => 0) cycle_all_high).1
      cycle_all_high).2 = ["Switch pressed!\n"] ∧
    writes (poll_cycle false (poll_cycle false (init_switch fun _ => 0) cycle_all_high).1
      cycle_all_high).2 = [(GPIO4_VALUE_FILE, "1")] :=
  all_high_window_pressed false (poll_cycle false (init_switch fun _ => 0) cycle_all_high).1
    cycle_all_high (fun _ => 49) (by decide) (by decide)

/-- C3: when all ten samples are read and no stored sample equals 1 (zeros or
any other values), then for any prior structure `get_debounce_vals` returns 0
and the polling cycle prints the notice "Switch released!" once and nothing
else, and calls `write_to_file` once, for the gpio4 value file with the value
"0"; there is no write of "1". -/
theorem no_high_window_released (cs : Bool) (S : SWITCH_T) (c : Cycle)
    (b : Fin 10 → Fin 256) (hreads : ∀ i, delivers (c.reads i) (b i))
    (hnone : ∀ i, sample_value cs (b i) ≠ 1) :
    (get_debounce_vals cs c.reads S).rc = 0 ∧
    (∀ i, (get_debounce_vals cs c.reads S).S.values i ≠ 1) ∧
    notices (poll_cycle cs S c).2 = ["Switch released!\n"] ∧
    writes (poll_cycle cs S c).2 = [(GPIO4_VALUE_FILE, "0")] := by
  obtain ⟨hrc, hv, hh, hl, hsum⟩ := get_debounce_vals_success cs c.reads S b hreads
  have hne : ∀ i, (get_debounce_vals cs c.reads S).S.values i ≠ 1 := fun i => by
    rw [hv i]
    exact hnone i
  have h10 := count_low_all _ hne
  have hled := switch_led_low (get_debounce_vals cs c.reads S).S c.o_high c.o_low
    (by omega) (by omega)
  exact ⟨hrc, hne, by rw [poll_cycle_notices]; exact hled.1,
    by rw [poll_cycle_writes]; exact hled.2⟩

/-- Scenario B, on the structure left by an all-1 cycle. -/
theorem no_high_window_released_witness :
    (get_debounce_vals true cycle_all_low.reads
      (poll_cycle true (init_switch fun _ => 0) cycle_all_high).1).rc = 0 ∧
    (∀ i, (get_debounce_vals true cycle_all_low.reads
      (poll_cycle true (init_switch fun _ => 0) cycle_all_high).1).S.values i ≠ 1) ∧
    notices (poll_cycle true (poll_cycle true (init_switch fun _ => 0) cycle_all_high).1
      cycle_all_low).2 = ["Switch released!\n"] ∧
    writes (poll_cycle true (poll_cycle true (init_switch fun _ => 0) cycle_all_high).1
      cycle_all_low).2 = [(GPIO4_VALUE_FILE, "0")] :=
  no_high_window_released true (poll_cycle true (init_switch fun _ => 0) cycle_all_high).1
    cycle_all_low (fun _ => 48) (by decide) (by decide)

/-- C5: for any prior structure, when all ten samples are read
`get_debounce_vals` returns 0 with `high_status + low_status = 10`,
`high_status` the number of window samples equal to 1 and `low_status` the
number of window samples different from 1, the window holding the converted
bytes just read; the prior counts play no part. -/
theorem counts_after_success (cs : Bool) (S : SWITCH_T) (io : Fin 10 → SampleOutcome)
    (b : Fin 10 → Fin 256) (hreads : ∀ i, delivers (io i) (b i)) :
    (get_debounce_vals cs io S).rc = 0 ∧
    (get_debounce_vals cs io S).S.high_status + (get_debounce_vals cs io S).S.low_status = 10 ∧
    (get_debounce_vals cs io S).S.high_status = count_high (fun i => sample_value cs (b i)) ∧
    (get_debounce_vals cs io S).S.low_status = count_low (fun i => sample_value cs (b i)) ∧
    (get_debounce_vals cs io S).S.values = fun i => sample_value cs (b i) := by
  obtain ⟨hrc, hv, hh, hl, hsum⟩ := get_debounce_vals_success cs io S b hreads
  have hfun : (get_debounce_vals cs io S).S.values = fun i => sample_value cs (b i) :=
    funext hv
  refine ⟨hrc, hsum, ?_, ?_, hfun⟩
  · rw [hh, hfun]
  · rw [hl, hfun]

/-- Scenario C on a structure whose counts are 10 and 0: the counts become 9 and 1. -/
theorem counts_after_success_witness :
    (get_debounce_vals false cycle_mixed.reads ⟨fun _ => 1, 10, 0⟩).rc = 0 ∧
    (get_debounce_vals false cycle_mixed.reads ⟨fun _ => 1, 10, 0⟩).S.high_status +
      (get_debounce_vals false cycle_mixed.reads ⟨fun _ => 1, 10, 0⟩).S.low_status = 10 ∧
    (get_debounce_vals false cycle_mixed.reads ⟨fun _ => 1, 10, 0⟩).S.high_status =
      count_high (fun i => sample_value false (if i = 5 then 48 else 49)) ∧
    (get_debounce_vals false cycle_mixed.reads ⟨fun _ => 1, 10, 0⟩).S.low_status =
      count_low (fun i => sample_value false (if i = 5 then 48 else 49)) ∧
    (get_debounce_vals false cycle_mixed.reads ⟨fun _ => 1, 10, 0⟩).S.values =
      fun i => sample_value false (if i = 5 then 48 else 49) :=
  counts_after_success false ⟨fun _ => 1, 10, 0⟩ cycle_mixed.reads
    (fun i => if i = 5 then 48 else 49) (by decide)

/-! ## A cycle whose sampling fails -/

/-- C4, at the failing input: after an all-1 cycle, a cycle whose read of
sample 5 of 10 fails makes `get_debounce_vals` return 1 with positions 0..3 of
the window overwritten by 0, and still the loop body of `main` prints
"Switch pressed!" and writes "1" to the gpio4 value file, because `main` calls
`switch_led` on the counts left by the earlier cycle. -/
theorem failed_cycle_still_classifies :
    (get_debounce_vals false cycle_read_fails.reads
      (poll_cycle false (init_switch fun _ => 0) cycle_all_high).1).rc = 1 ∧
    (get_debounce_vals false cycle_read_fails.reads
      (poll_cycle false (init_switch fun _ => 0) cycle_all_high).1).S.values 0 = 0 ∧
    notices (poll_cycle false (poll_cycle false (init_switch fun _ => 0) cycle_all_high).1
      cycle_read_fails).2 = ["Switch pressed!\n"] ∧
    writes (poll_cycle false (poll_cycle false (init_switch fun _ => 0) cycle_all_high).1
      cycle_read_fails).2 = [(GPIO4_VALUE_FILE, "1")] ∧
    notices (main false write_ok write_ok write_ok write_ok (fun _ => 0)
      [cycle_all_high, cycle_read_fails]).2 = ["Switch pressed!\n", "Switch pressed!\n"] := by
  decide

/-! ## Conversion of the byte read -/

theorem get_debounce_vals_values (cs : Bool) (io : Fin 10 → SampleOutcome) (S : SWITCH_T) :
    (get_debounce_vals cs io S).S.values = (sample_loop cs io 10 S).S.values := by
  unfold get_debounce_vals
  rcases sample_loop_ret cs io 10 S with h | h <;> simp only [h]
  rw [count_loop_values]

theorem sample_value_eq (cs : Bool) (c : Fin 256) :
    sample_value cs c = to_char cs ((c.val : Int) - 48) := by
  unfold sample_value to_char
  cases cs <;> simp <;> omega

theorem sample_value_one_iff (cs : Bool) (c : Fin 256) : sample_value cs c = 1 ↔ c.val = 49 := by
  have hc := c.isLt
  unfold sample_value to_char
  cases cs <;> simp <;> omega

/-- The stored sample as a number, without reference to the conversion: for
unsigned `char` it is `c - 48` for bytes from 48 on and `c + 208` below; for
signed `char` it is `c - 48` for bytes below 176 and `c - 304` from 176 on. -/
theorem sample_value_number (cs : Bool) (c : Fin 256) :
    sample_value cs c =
      if cs then (if c.val < 176 then (c.val : Int) - 48 else (c.val : Int) - 304)
      else (if 48 ≤ c.val then (c.val : Int) - 48 else (c.val : Int) + 208) := by
  have hc := c.isLt
  unfold sample_value to_char
  cases cs
  · simp only [Bool.false_eq_true, if_false]
    split_ifs <;> omega
  · simp only [if_true]
    split_ifs <;> omega

/-- C9: at every position `i`, when the iterations before `i` succeed and the
open and the read of iteration `i` succeed with the 8-bit byte `c`,
`get_debounce_vals` leaves at window position `i` the value `c - 48` reduced
to the 8-bit `char` range, whether or not the call then succeeds: the stored
value differs from `c - 48` by a multiple of 256, lies in `0..255` for
unsigned and in `-128..127` for signed `char`, and is the number given
explicitly below; the bytes 48 and 49 (the characters 0 and 1) are stored as
0 and 1, and the stored sample equals 1 exactly when the byte is 49. -/
theorem stored_sample_is_byte_minus_48 (cs : Bool) (io : Fin 10 → SampleOutcome) (S : SWITCH_T)
    (i : Fin 10) (c : Fin 256) (hbefore : ∀ j : Fin 10, j.val < i.val → sample_ok (io j))
    (hopen : (io i).fopen_ok = true) (hread : (io i).fread = some c) :
    (get_debounce_vals cs io S).S.values i = sample_value cs c ∧
    sample_value cs c = to_char cs ((c.val : Int) - 48) ∧
    sample_value cs 48 = 0 ∧ sample_value cs 49 = 1 ∧
    ((get_debounce_vals cs io S).S.values i = 1 ↔ c = 49) ∧
    (256 : Int) ∣ (get_debounce_vals cs io S).S.values i - ((c.val : Int) - 48) ∧
    (if cs then
        -128 ≤ (get_debounce_vals cs io S).S.values i ∧
          (get_debounce_vals cs io S).S.values i ≤ 127
      else
        0 ≤ (get_debounce_vals cs io S).S.values i ∧
          (get_debounce_vals cs io S).S.values i ≤ 255) ∧
    (get_debounce_vals cs io S).S.values i =
      (if cs then (if c.val < 176 then (c.val : Int) - 48 else (c.val : Int) - 304)
       else (if 48 ≤ c.val then (c.val : Int) - 48 else (c.val : Int) + 208)) ∧
    (c.val = 48 → (get_debounce_vals cs io S).S.values i = 0) ∧
    (c.val = 49 → (get_debounce_vals cs io S).S.values i = 1) := by
  have hst : (get_debounce_vals cs io S).S.values i = sample_value cs c := by
    rw [get_debounce_vals_values]
    exact sample_loop_stored cs io 10 (le_refl _) S i c (by omega)
      (fun j _ hj => hbefore j hj) hopen hread
  have hc := c.isLt
  have hnum := sample_value_number cs c
  refine ⟨hst, sample_value_eq cs c, ?_, ?_, ?_, ?_, ?_, ?_, ?_, ?_⟩
  · cases cs <;> decide
  · cases cs <;> decide
  · rw [hst, sample_value_one_iff]
    constructor
    · intro h
      exact Fin.ext h
    · intro h
      rw [h]
      rfl
  · rw [hst, hnum]
    cases cs
    · simp only [Bool.false_eq_true, if_false]
      split_ifs <;> omega
    · simp only [if_true]
      split_ifs <;> omega
  · rw [hst, hnum]
    cases cs
    · simp only [Bool.false_eq_true, if_false]
      split_ifs <;> omega
    · simp only [if_true]
      split_ifs <;> omega
  · rw [hst, hnum]
  · intro h
    rw [hst, hnum]
    cases cs
    · simp only [Bool.false_eq_true, if_false]
      split_ifs <;> omega
    · simp only [if_true]
      split_ifs <;> omega
  · intro h
    rw [hst, hnum]
    cases cs
    · simp only [Bool.false_eq_true, if_false]
      split_ifs <;> omega
    · simp only [if_true]
      split_ifs <;> omega

/-- The byte 47 read at position 3 of a cycle whose later read fails: with
signed `char` the window holds -1 there, a value in `-128..127` that differs
from 47 - 48 by 0; it is not 1. -/
theorem stored_sample_is_byte_minus_48_witness :
    (get_debounce_vals true
        (fun j => if j = 3 then ⟨true, some 47, 0⟩ else cycle_read_fails.reads j)
        (init_switch fun _ => 0)).S.values 3 = -1 ∧
    (get_debounce_vals true
        (fun j => if j = 3 then ⟨true, some 47, 0⟩ else cycle_read_fails.reads j)
        (init_switch fun _ => 0)).S.values 3 = sample_value true 47 ∧
    sample_value true 47 = -1 ∧
    ((get_debounce_vals true
        (fun j => if j = 3 then ⟨true, some 47, 0⟩ else cycle_read_fails.reads j)
        (init_switch fun _ => 0)).S.values 3 = 1 ↔ (47 : Fin 256) = 49) ∧
    (256 : Int) ∣ (get_debounce_vals true
        (fun j => if j = 3 then ⟨true, some 47, 0⟩ else cycle_read_fails.reads j)
        (init_switch fun _ => 0)).S.values 3 - (47 - 48) ∧
    (-128 ≤ (get_debounce_vals true
        (fun j => if j = 3 then ⟨true, some 47, 0⟩ else cycle_read_fails.reads j)
        (init_switch fun _ => 0)).S.values 3 ∧
      (get_debounce_vals true
        (fun j => if j = 3 then ⟨true, some 47, 0⟩ else cycle_read_fails.reads j)
        (init_switch fun _ => 0)).S.values 3 ≤ 127) := by
  have h := stored_sample_is_byte_minus_48 true
    (fun j => if j = 3 then ⟨true, some 47, 0⟩ else cycle_read_fails.reads j)
    (init_switch fun _ => 0) 3 47 (by decide) (by decide) (by decide)
  obtain ⟨h1, _, _, _, h5, h6, h7, h8, _, _⟩ := h
  refine ⟨?_, h1, ?_, h5, ?_, ?_⟩
  · rw [h8]
    decide
  · rw [← h1, h8]
    decide
  · simpa using h6
  · simpa using h7

/-! ## The counts throughout the polling loop -/

theorem counts_inv_init (garbage : Fin 10 → Int) : counts_inv (init_switch garbage) := by
  simp [counts_inv, init_switch]

theorem poll_cycle_state (cs : Bool) (S : SWITCH_T) (c : Cycle) :
    (poll_cycle cs S c).1 = (get_debounce_vals cs c.reads S).S := rfl

theorem counts_inv_cycle (cs : Bool) (S : SWITCH_T) (c : Cycle) (h : counts_inv S) :
    counts_inv (poll_cycle cs S c).1 := by
  rw [poll_cycle_state]
  by_cases hok : ∀ i, sample_ok (c.reads i)
  · have hdel : ∀ i, delivers (c.reads i) (((c.reads i).fread).getD 0) := by
      intro i
      obtain ⟨h1, h2, h3⟩ := hok i
      obtain ⟨b, hb⟩ := Option.ne_none_iff_exists'.mp h2
      exact ⟨h1, by rw [hb]; rfl, h3⟩
    obtain ⟨_, _, hh, hl, hsum⟩ := get_debounce_vals_success cs c.reads S _ hdel
    refine ⟨?_, ?_, Or.inr hsum⟩
    · rw [hh]
      exact Int.natCast_nonneg _
    · rw [hl]
      exact Int.natCast_nonneg _
  · obtain ⟨_, hh, hl⟩ := get_debounce_vals_failure cs c.reads S hok
    unfold counts_inv
    rw [hh, hl]
    exact h

theorem counts_inv_forever (cs : Bool) (S : SWITCH_T) (cycles : List Cycle) (h : counts_inv S) :
    counts_inv (poll_forever cs S cycles).1 := by
  induction cycles generalizing S with
  | nil => exact h
  | cons c rest ih =>
    simp only [poll_forever]
    exact ih _ (counts_inv_cycle cs S c h)

/-- C10: in the structure reached from `init_switch` by any number of
iterations of the loop of `main`, whatever calls of `get_debounce_vals`
succeeded or failed, both counts are non-negative and are either both 0 or sum
to 10; so they are never both 10, and `switch_led` on that structure prints at
most one notice and makes at most one write, which goes to the gpio4 value file. -/
theorem loop_counts_invariant (cs : Bool) (garbage : Fin 10 → Int) (cycles : List Cycle)
    (o_high o_low : WriteOutcome) :
    0 ≤ (poll_forever cs (init_switch garbage) cycles).1.high_status ∧
    0 ≤ (poll_forever cs (init_switch garbage) cycles).1.low_status ∧
    (((poll_forever cs (init_switch garbage) cycles).1.high_status = 0 ∧
        (poll_forever cs (init_switch garbage) cycles).1.low_status = 0) ∨
      (poll_forever cs (init_switch garbage) cycles).1.high_status +
        (poll_forever cs (init_switch garbage) cycles).1.low_status = 10) ∧
    ¬ ((poll_forever cs (init_switch garbage) cycles).1.high_status = 10 ∧
        (poll_forever cs (init_switch garbage) cycles).1.low_status = 10) ∧
    (notices (switch_led (poll_forever cs (init_switch garbage) cycles).1 o_high o_low)).length
      ≤ 1 ∧
    (writes (switch_led (poll_forever cs (init_switch garbage) cycles).1 o_high o_low)).length
      ≤ 1 ∧
    (∀ w ∈ writes (switch_led (poll_forever cs (init_switch garbage) cycles).1 o_high o_low),
      w.1 = GPIO4_VALUE_FILE) := by
  obtain ⟨h1, h2, h3⟩ := counts_inv_forever cs _ cycles (counts_inv_init garbage)
  have hboth : ¬ ((poll_forever cs (init_switch garbage) cycles).1.high_status = 10 ∧
      (poll_forever cs (init_switch garbage) cycles).1.low_status = 10) := by
    intro ⟨ha, hb⟩
    omega
  refine ⟨h1, h2, h3, hboth, ?_, ?_, ?_⟩
  all_goals
    by_cases hh : (poll_forever cs (init_switch garbage) cycles).1.high_status = 10
    · have hl : (poll_forever cs (init_switch garbage) cycles).1.low_status ≠ 10 :=
        fun hl => hboth ⟨hh, hl⟩
      simp [(switch_led_high _ o_high o_low hh hl).1, (switch_led_high _ o_high o_low hh hl).2]
    · by_cases hl : (poll_forever cs (init_switch garbage) cycles).1.low_status = 10
      · simp [(switch_led_low _ o_high o_low hh hl).1, (switch_led_low _ o_high o_low hh hl).2]
      · simp [switch_led_neither _ o_high o_low hh hl, notices, writes]

/-! ## Initialisation -/

theorem init_gpio_samples (o1 o2 o3 o4 : WriteOutcome) :
    samples (init_gpio o1 o2 o3 o4).events = [] := by
  unfold init_gpio
  simp only []
  split_ifs <;> simp [samples_append, write_to_file_samples, samples]

/-- C7: `init_gpio` makes its writes in the order export "17", gpio17 direction
"in", export "4", gpio4 direction "out" and stops after the first one that
fails; it returns 0 exactly when all four succeed and 1 otherwise; when it
does not return 0, `main` returns exit status 1 having sampled nothing and
written nothing but those set-up writes, so nothing to the gpio4 value file;
when it returns 0, `main` enters the loop. -/
theorem init_gpio_order_and_fatal (cs : Bool) (o1 o2 o3 o4 : WriteOutcome)
    (garbage : Fin 10 → Int) (cycles : List Cycle) :
    ((init_gpio o1 o2 o3 o4).rc = 0 ↔
      ((write_to_file ENABLE_GPIO_FILE "17" o1).rc = 0 ∧
       (write_to_file SET_DIRECTION_FILE "in" o2).rc = 0 ∧
       (write_to_file ENABLE_GPIO4_FILE "4" o3).rc = 0 ∧
       (write_to_file SET_DIRECTION4_FILE "out" o4).rc = 0)) ∧
    ((init_gpio o1 o2 o3 o4).rc = 0 ∨ (init_gpio o1 o2 o3 o4).rc = 1) ∧
    writes (init_gpio o1 o2 o3 o4).events = setup_writes.take
      (if (write_to_file ENABLE_GPIO_FILE "17" o1).rc ≠ 0 then 1
       else if (write_to_file SET_DIRECTION_FILE "in" o2).rc ≠ 0 then 2
       else if (write_to_file ENABLE_GPIO4_FILE "4" o3).rc ≠ 0 then 3
       else 4) ∧
    ((init_gpio o1 o2 o3 o4).rc ≠ 0 →
      (main cs o1 o2 o3 o4 garbage cycles).1 = some 1 ∧
      samples (main cs o1 o2 o3 o4 garbage cycles).2 = [] ∧
      writes (main cs o1 o2 o3 o4 garbage cycles).2 = writes (init_gpio o1 o2 o3 o4).events ∧
      (∀ v, (GPIO4_VALUE_FILE, v) ∉ writes (main cs o1 o2 o3 o4 garbage cycles).2)) ∧
    ((init_gpio o1 o2 o3 o4).rc = 0 → (main cs o1 o2 o3 o4 garbage cycles).1 = none) := by
  have hw : writes (init_gpio o1 o2 o3 o4).events = setup_writes.take
      (if (write_to_file ENABLE_GPIO_FILE "17" o1).rc ≠ 0 then 1
       else if (write_to_file SET_DIRECTION_FILE "in" o2).rc ≠ 0 then 2
       else if (write_to_file ENABLE_GPIO4_FILE "4" o3).rc ≠ 0 then 3
       else 4) := by
    unfold init_gpio
    simp only []
    split_ifs <;>
      simp [writes_append, write_to_file_writes, writes, setup_writes]
  refine ⟨?_, ?_, hw, ?_, ?_⟩
  · unfold init_gpio
    simp only []
    split_ifs with h1 h2 h3 h4 <;> simp_all
  · unfold init_gpio
    simp only []
    split_ifs <;> simp
  · intro hrc
    have hmain : main cs o1 o2 o3 o4 garbage cycles =
        (some 1, (init_gpio o1 o2 o3 o4).events ++
          [Event.perror "could not initialize gpio17"]) := by
      simp [main, hrc]
    rw [hmain]
    refine ⟨rfl, ?_, ?_, ?_⟩
    · simp [samples_append, init_gpio_samples, samples]
    · simp [writes_append, writes]
    · intro v hv
      simp only [writes_append, writes, List.append_nil] at hv
      rw [hw] at hv
      have hmem := List.mem_of_mem_take hv
      simp [setup_writes, GPIO4_VALUE_FILE, ENABLE_GPIO_FILE, SET_DIRECTION_FILE,
        ENABLE_GPIO4_FILE, SET_DIRECTION4_FILE] at hmem
  · intro hrc
    simp [main, hrc]

/-- The export of pin 4 fails: two writes succeed, the third is attempted,
the fourth is not, and `main` exits with status 1 before the first cycle. -/
theorem init_gpio_order_and_fatal_witness :
    ((init_gpio write_ok write_ok write_fails write_ok).rc = 0 ↔
      ((write_to_file ENABLE_GPIO_FILE "17" write_ok).rc = 0 ∧
       (write_to_file SET_DIRECTION_FILE "in" write_ok).rc = 0 ∧
       (write_to_file ENABLE_GPIO4_FILE "4" write_fails).rc = 0 ∧
       (write_to_file SET_DIRECTION4_FILE "out" write_ok).rc = 0)) ∧
    ((init_gpio write_ok write_ok write_fails write_ok).rc = 0 ∨
      (init_gpio write_ok write_ok write_fails write_ok).rc = 1) ∧
    writes (init_gpio write_ok write_ok write_fails write_ok).events = setup_writes.take
      (if (write_to_file ENABLE_GPIO_FILE "17" write_ok).rc ≠ 0 then 1
       else if (write_to_file SET_DIRECTION_FILE "in" write_ok).rc ≠ 0 then 2
       else if (write_to_file ENABLE_GPIO4_FILE "4" write_fails).rc ≠ 0 then 3
       else 4) ∧
    ((init_gpio write_ok write_ok write_fails write_ok).rc ≠ 0 →
      (main false write_ok write_ok write_fails write_ok (fun _ => 0) [cycle_all_high]).1
        = some 1 ∧
      samples (main false write_ok write_ok write_fails write_ok (fun _ => 0)
        [cycle_all_high]).2 = [] ∧
      writes (main false write_ok write_ok write_fails write_ok (fun _ => 0)
        [cycle_all_high]).2 = writes (init_gpio write_ok write_ok write_fails write_ok).events ∧
      (∀ v, (GPIO4_VALUE_FILE, v) ∉ writes (main false write_ok write_ok write_fails write_ok
        (fun _ => 0) [cycle_all_high]).2)) ∧
    ((init_gpio write_ok write_ok write_fails write_ok).rc = 0 →
      (main false write_ok write_ok write_fails write_ok (fun _ => 0) [cycle_all_high]).1
        = none) :=
  init_gpio_order_and_fatal false write_ok write_ok write_fails write_ok (fun _ => 0)
    [cycle_all_high]

end gpio_extra

/-! ## The write primitive of both programs -/

/-- C6: in both programs `write_to_file` returns 1 exactly when the `fopen`
fails, or the `fprintf` returns 0 (no byte transferred), or the `fclose`
returns non-zero, and returns 0 in every other case, for every file, value
and outcome of the three calls. -/
theorem write_to_file_fails_iff (file value : String) (o : WriteOutcome) :
    ((gpio_extra.write_to_file file value o).rc = 1 ↔
      (o.fopen_ok = false ∨ o.fprintf = 0 ∨ o.fclose ≠ 0)) ∧
    ((gpio_extra.write_to_file file value o).rc = 0 ↔
      ¬ (o.fopen_ok = false ∨ o.fprintf = 0 ∨ o.fclose ≠ 0)) ∧
    ((blink_led.write_to_file file value o).rc = 1 ↔
      (o.fopen_ok = false ∨ o.fprintf = 0 ∨ o.fclose ≠ 0)) ∧
    ((blink_led.write_to_file file value o).rc = 0 ↔
      ¬ (o.fopen_ok = false ∨ o.fprintf = 0 ∨ o.fclose ≠ 0)) := by
  unfold gpio_extra.write_to_file blink_led.write_to_file
  refine ⟨?_, ?_, ?_, ?_⟩ <;> split_ifs <;> simp_all

namespace blink_led

/-! ## The blink loop -/

theorem blink_write_to_file_writes (file value : String) (o : WriteOutcome) :
    writes (write_to_file file value o).events = [(file, value)] := by
  unfold write_to_file
  split_ifs <;> simp [writes]

theorem blink_forever_writes_cons (o0 o1 : WriteOutcome)
    (rest : List (WriteOutcome × WriteOutcome)) :
    writes (blink_forever ((o0, o1) :: rest)) =
      (SET_VALUE_FILE, "0") :: (SET_VALUE_FILE, "1") :: writes (blink_forever rest) := by
  simp [blink_forever, writes_append, blink_write_to_file_writes, writes]

theorem blink_forever_writes_length (iterations : List (WriteOutcome × WriteOutcome)) :
    (writes (blink_forever iterations)).length = 2 * iterations.length := by
  induction iterations with
  | nil => rfl
  | cons x rest ih =>
    obtain ⟨o0, o1⟩ := x
    rw [blink_forever_writes_cons]
    simp only [List.length_cons, ih]
    omega

theorem blink_forever_writes_get (iterations : List (WriteOutcome × WriteOutcome)) (n : Nat)
    (hn : n < 2 * iterations.length) :
    (writes (blink_forever iterations))[n]? =
      some (SET_VALUE_FILE, if n % 2 = 0 then "0" else "1") := by
  induction iterations generalizing n with
  | nil => simp at hn
  | cons x rest ih =>
    obtain ⟨o0, o1⟩ := x
    rw [blink_forever_writes_cons]
    match n with
    | 0 => rfl
    | 1 => simp
    | m + 2 =>
      simp only [List.getElem?_cons_succ]
      rw [ih m (by simp only [List.length_cons] at hn; omega)]
      simp [Nat.add_mod]

/-- C8: once both initialisation writes have succeeded `main` enters its
loop, and for every `n` the `n`-th write of the loop (counting from 0, present
as soon as more than `n / 2` iterations have run) is made to the gpio4 value
file with the value "0" when `n` is even and "1" when `n` is odd, whatever the
outcome of any write of the loop. -/
theorem blink_writes_alternate (o_enable o_direction : WriteOutcome)
    (iterations : List (WriteOutcome × WriteOutcome)) (n : Nat)
    (henable : (write_to_file ENABLE_GPIO_FILE "4" o_enable).rc = 0)
    (hdirection : (write_to_file SET_DIRECTION_FILE "out" o_direction).rc = 0)
    (hn : n < 2 * iterations.length) :
    (main o_enable o_direction iterations).1 = none ∧
    writes (main o_enable o_direction iterations).2 =
      [(ENABLE_GPIO_FILE, "4"), (SET_DIRECTION_FILE, "out")] ++
        writes (blink_forever iterations) ∧
    (writes (blink_forever iterations)).length = 2 * iterations.length ∧
    (writes (blink_forever iterations))[n]? =
      some (SET_VALUE_FILE, if n % 2 = 0 then "0" else "1") := by
  refine ⟨?_, ?_, blink_forever_writes_length iterations,
    blink_forever_writes_get iterations n hn⟩
  · simp [main, henable, hdirection]
  · simp [main, henable, hdirection, writes_append, blink_write_to_file_writes]

/-- Two iterations in which the first three writes of the loop fail: the
fourth write of the loop (n = 3) is still "1" to the gpio4 value file. -/
theorem blink_writes_alternate_witness :
    (main ⟨true, 2, 0⟩ ⟨true, 4, 0⟩
      [(⟨false, 0, 0⟩, ⟨true, 0, 0⟩), (⟨true, 2, 1⟩, ⟨true, 2, 0⟩)]).1 = none ∧
    writes (main ⟨true, 2, 0⟩ ⟨true, 4, 0⟩
      [(⟨false, 0, 0⟩, ⟨true, 0, 0⟩), (⟨true, 2, 1⟩, ⟨true, 2, 0⟩)]).2 =
      [(ENABLE_GPIO_FILE, "4"), (SET_DIRECTION_FILE, "out")] ++
        writes (blink_forever [(⟨false, 0, 0⟩, ⟨true, 0, 0⟩), (⟨true, 2, 1⟩, ⟨true, 2, 0⟩)]) ∧
    (writes (blink_forever
      [(⟨false, 0, 0⟩, ⟨true, 0, 0⟩), (⟨true, 2, 1⟩, ⟨true, 2, 0⟩)])).length =
      2 * [((⟨false, 0, 0⟩ : WriteOutcome), (⟨true, 0, 0⟩ : WriteOutcome)),
           (⟨true, 2, 1⟩, ⟨true, 2, 0⟩)].length ∧
    (writes (blink_forever
      [(⟨false, 0, 0⟩, ⟨true, 0, 0⟩), (⟨true, 2, 1⟩, ⟨true, 2, 0⟩)]))[3]? =
      some (SET_VALUE_FILE, if 3 % 2 = 0 then "0" else "1") :=
  blink_writes_alternate ⟨true, 2, 0⟩ ⟨true, 4, 0⟩
    [(⟨false, 0, 0⟩, ⟨true, 0, 0⟩), (⟨true, 2, 1⟩, ⟨true, 2, 0⟩)] 3
    (by decide) (by decide) (by decide)

end blink_led
